import Mathlib

/-!
Shallow embedding of the WRES evaluation-CSV query core (`src/main.py`,
class `EvaluationCSVManager` and the colorbar-limit table used by
`SiteSelector.generate`).

Modelling conventions:
* polars null values are `Option.none`; a nullable CSV column of Python
  type `str` / `float` / datetime becomes `Option String` / `Option ℚ` /
  `Option Int` (datetimes and durations are microsecond counts, polars'
  default time unit, so `pl.duration(days=90)` is the integer constant
  `duration90Days`).
* `Float32` statistic and quantile values are modelled by `ℚ`; the claims
  checked here only use equality and order of these values, never rounding.
* The lazy frame `EvaluationCSVManager._dataframe` (after the
  `with_columns` derivation of `__post_init__`) is a `List Row`;
  `collect()` materializes it as-is, so queries are list filters.
* `np.nan` as the `sample_quantile` default sentinel is modelled by `none`
  in the `sampleQuantile` argument (the code tests it with `np.isnan`).
* A polars strict cast failure (the `.cast(pldt.Int32)` of an extracted
  digit run that exceeds the Int32 range raises at collect time) is
  modelled by `Option.none` in `leadPipeline` / `deriveRow`.
-/

namespace WresExplorer

/-- The `null_values` list passed to `pl.scan_csv` in
`EvaluationCSVManager.__post_init__` (main.py lines 55-60): literal
sentinel encodings normalized to null at parse time. -/
def NULL_VALUES : List String :=
  ["-1000000000-01-01T00:00:00Z",
   "+1000000000-12-31T23:59:59.999999999Z",
   "PT-2562047788015215H-30M-8S",
   "PT2562047788015215H30M7.999999999S"]

/-- CSV field parsing as done by `pl.scan_csv` with the `null_values`
option: an empty field or a field equal to one of the sentinel strings
becomes null, anything else is kept as a string value. -/
def normalizeField (raw : String) : Option String :=
  if raw = "" ∨ raw ∈ NULL_VALUES then none else some raw

/-- Longest run of leading decimal digits of a character list (helper for
the regex `(\d+)` used by `str.extract` in main.py lines 67 and 70). -/
def takeDigits : List Char → List Char
  | [] => []
  | c :: cs => if c.isDigit then c :: takeDigits cs else []

/-- First maximal run of decimal digits in a character list: the first
match of the regex `(\d+)`, `none` when the string has no digit. -/
def firstDigitRun : List Char → Option (List Char)
  | [] => none
  | c :: cs => if c.isDigit then some (c :: takeDigits cs) else firstDigitRun cs

/-- Decimal value of a digit run. -/
def digitsToNat (ds : List Char) : Nat :=
  ds.foldl (fun acc c => 10 * acc + (c.toNat - 48)) 0

/-- `pl.col(...).str.extract("(\\d+)")` followed by reading the matched
digit run as a number: the first contiguous digit run of the string,
`none` when there is none. -/
def extractLeadNat (s : String) : Option Nat :=
  (firstDigitRun s.data).map digitsToNat

/-- Largest value accepted by the strict `.cast(pldt.Int32)`. -/
def int32Max : Nat := 2 ^ 31 - 1

/-- The full lead-time column expression of `__post_init__`
(main.py lines 66-71, identical for both lead columns):
`str.extract("(\\d+)")` then `.cast(pldt.Int32)` then `.fill_null(0)`.
A null input or a string without digits extracts to null, which
`fill_null(0)` turns into `0`; a digit run in Int32 range casts to its
value; a digit run out of Int32 range makes the strict cast raise at
collect time, modelled by the `none` result. -/
def leadPipeline (s : Option String) : Option Int :=
  match s.bind extractLeadNat with
  | none => some 0
  | some n => if n ≤ int32Max then some (Int.ofNat n) else none

/-- One parsed CSV row after `pl.scan_csv` + `select` (the fifteen
columns of `DTYPE_MAPPING`, main.py lines 13-29), before the
`with_columns` derivation. Datetimes are microsecond counts. -/
structure SourceRow where
  leftFeatureName : Option String
  leftFeatureWkt : Option String
  leftFeatureDescription : Option String
  rightFeatureName : Option String
  latestIssuedTimeInclusive : Option Int
  earliestValidTimeExclusive : Option Int
  latestValidTimeInclusive : Option Int
  earliestIssuedTimeExclusive : Option Int
  earliestLeadDurationExclusive : Option String
  latestLeadDurationInclusive : Option String
  eventThresholdName : Option String
  eventThresholdLowerValue : Option ℚ
  metricName : Option String
  sampleQuantile : Option ℚ
  statistic : Option ℚ
deriving DecidableEq

/-- One row of `EvaluationCSVManager._dataframe`: the source columns plus
the three derived columns appended by `with_columns` in `__post_init__`
(main.py lines 62-72). `EARLIEST LEAD TIME` and `LATEST LEAD TIME` are
non-nullable (`fill_null(0)`), `EVALUATION PERIOD` is nullable. -/
structure Row where
  leftFeatureName : Option String
  leftFeatureWkt : Option String
  leftFeatureDescription : Option String
  rightFeatureName : Option String
  latestIssuedTimeInclusive : Option Int
  earliestValidTimeExclusive : Option Int
  latestValidTimeInclusive : Option Int
  earliestIssuedTimeExclusive : Option Int
  earliestLeadDurationExclusive : Option String
  latestLeadDurationInclusive : Option String
  eventThresholdName : Option String
  eventThresholdLowerValue : Option ℚ
  metricName : Option String
  sampleQuantile : Option ℚ
  statistic : Option ℚ
  evaluationPeriod : Option Int
  earliestLeadTime : Int
  latestLeadTime : Int
deriving DecidableEq

/-- The `with_columns` derivation of `__post_init__` (main.py lines
62-72): `EVALUATION PERIOD` is the difference of the two issued-time
columns (null when either is null), the two lead-time columns come from
`leadPipeline`. The result is `none` exactly when a strict Int32 cast of
an extracted digit run would raise at collect time. -/
def deriveRow (r : SourceRow) : Option Row :=
  match leadPipeline r.earliestLeadDurationExclusive,
        leadPipeline r.latestLeadDurationInclusive with
  | some e, some l =>
    some {
      leftFeatureName := r.leftFeatureName
      leftFeatureWkt := r.leftFeatureWkt
      leftFeatureDescription := r.leftFeatureDescription
      rightFeatureName := r.rightFeatureName
      latestIssuedTimeInclusive := r.latestIssuedTimeInclusive
      earliestValidTimeExclusive := r.earliestValidTimeExclusive
      latestValidTimeInclusive := r.latestValidTimeInclusive
      earliestIssuedTimeExclusive := r.earliestIssuedTimeExclusive
      earliestLeadDurationExclusive := r.earliestLeadDurationExclusive
      latestLeadDurationInclusive := r.latestLeadDurationInclusive
      eventThresholdName := r.eventThresholdName
      eventThresholdLowerValue := r.eventThresholdLowerValue
      metricName := r.metricName
      sampleQuantile := r.sampleQuantile
      statistic := r.statistic
      evaluationPeriod :=
        match r.latestIssuedTimeInclusive, r.earliestIssuedTimeExclusive with
        | some a, some b => some (a - b)
        | _, _ => none
      earliestLeadTime := e
      latestLeadTime := l }
  | _, _ => none

/-- The manager after `__post_init__`: its `_dataframe` (the derived lazy
frame), modelled by the list of rows that `collect()` would produce. -/
structure EvaluationCSVManager where
  dataframe : List Row
deriving DecidableEq

/-- The AND-combined row filter applied by `_dataframe.filter(*filters)`
once at least one predicate is given: keep the rows on which every
predicate of the list holds (polars ANDs the positional predicates). -/
def filterRows (m : EvaluationCSVManager) (filters : List (Row → Bool)) : List Row :=
  m.dataframe.filter (fun r => filters.all (fun p => p r))

/-- `EvaluationCSVManager.query` (main.py lines 74-85) without the
optional `select` projection: `self._dataframe.filter(*filters)`.
polars `filter` with zero positional predicates raises
`TypeError` ("at least one predicate or constraint must be provided");
that raise is modelled by `none`. With at least one predicate the
AND-combined filter is applied. -/
def query (m : EvaluationCSVManager) (filters : List (Row → Bool)) :
    Option (List Row) :=
  if filters.isEmpty then none else some (filterRows m filters)

/-- First-occurrence deduplication with an accumulator of already seen
values: the deterministic model used here for polars `.unique()`
(the source never sorts after `.unique()`, and polars fixes no output
order; first-appearance order is one faithful deterministic choice). -/
def uniqueFirstAux [DecidableEq α] (seen : List α) : List α → List α
  | [] => []
  | x :: xs =>
    if x ∈ seen then uniqueFirstAux seen xs
    else x :: uniqueFirstAux (x :: seen) xs

/-- `.unique()` on a materialized column list, keeping first occurrences. -/
def uniqueFirst [DecidableEq α] (l : List α) : List α :=
  uniqueFirstAux [] l

/-- `EvaluationCSVManager.geometry` (main.py lines 138-144) up to WKT
parsing: select (LEFT FEATURE NAME, LEFT FEATURE WKT), deduplicate, and
index by the name. The WKT text is kept unparsed; `GeoSeries.from_wkt`
only changes the value representation, not the index or the row set. -/
def geometry (m : EvaluationCSVManager) : List (Option String × Option String) :=
  uniqueFirst (m.dataframe.map (fun r => (r.leftFeatureName, r.leftFeatureWkt)))

/-- pandas index alignment used by `df["geometry"] = self.geometry`
(main.py lines 113 and 135): the value of the series at label `k`, or
`none` (NaN) when the label is absent from the series index. -/
def seriesLookup (geom : List (Option String × Option String))
    (k : Option String) : Option (Option String) :=
  (geom.find? (fun p => p.1 == k)).map (fun p => p.2)

/-- The geometry-assignment step of `load_metric_map` (main.py line 113):
each statistic row, keyed by LEFT FEATURE NAME, gets the geometry value
aligned from the series; a missing label silently aligns to null, it
raises nothing. -/
def assignGeometry (stats : List (Option String × Option ℚ))
    (geom : List (Option String × Option String)) :
    List (Option String × Option ℚ × Option (Option String)) :=
  stats.map (fun p => (p.1, p.2, seriesLookup geom p.1))

/-- `pl.duration(days=90)` in microseconds (the default for
`load_metric_map`'s `evaluation_period`, main.py lines 103-104). -/
def duration90Days : Int := 7776000000000

/-- The sample-quantile predicate of `load_metric_map` (main.py lines
99-102): the `np.nan` sentinel (modelled by `none`) selects null
quantiles, a number selects rows equal to it (a null quantile compares
to null in polars and is dropped by `filter`). -/
def sqFilterExpr (sampleQuantile : Option ℚ) (r : Row) : Bool :=
  match sampleQuantile with
  | none => r.sampleQuantile.isNone
  | some q => r.sampleQuantile == some q

/-- The threshold predicate of `load_metric_map` (main.py lines 95-98):
`None` selects null thresholds, a string selects rows equal to it. -/
def tholdFilterExpr (threshold : Option String) (r : Row) : Bool :=
  match threshold with
  | none => r.eventThresholdName.isNone
  | some t => r.eventThresholdName == some t

/-- The filtered and projected statistic rows of
`EvaluationCSVManager.load_metric_map` (main.py lines 105-112): the five
AND-combined predicates, then the (LEFT FEATURE NAME, STATISTIC)
projection, materialized. The method calls `self.query` with five
positional predicates, so the zero-predicate guard of polars `filter`
never fires on this path and the call equals `filterRows` on the five
predicates (lemma `query_cons`). -/
def loadMetricMapStats (m : EvaluationCSVManager) (metricName : String)
    (earliestLeadTime : Int) (threshold : Option String)
    (sampleQuantile : Option ℚ) (evaluationPeriod : Option Int) :
    List (Option String × Option ℚ) :=
  (filterRows m
    [fun r => r.earliestLeadTime == earliestLeadTime,
     sqFilterExpr sampleQuantile,
     tholdFilterExpr threshold,
     fun r => r.evaluationPeriod == some (evaluationPeriod.getD duration90Days),
     fun r => r.metricName == some metricName]).map
    (fun r => (r.leftFeatureName, r.statistic))

/-- `EvaluationCSVManager.load_metric_map` (main.py lines 87-114): the
filtered statistic rows with the geometry series aligned onto them. -/
def loadMetricMap (m : EvaluationCSVManager) (metricName : String)
    (earliestLeadTime : Int) (threshold : Option String)
    (sampleQuantile : Option ℚ) (evaluationPeriod : Option Int) :
    List (Option String × Option ℚ × Option (Option String)) :=
  assignGeometry
    (loadMetricMapStats m metricName earliestLeadTime threshold
      sampleQuantile evaluationPeriod)
    (geometry m)

/-- Minimum of a materialized column, polars style: nulls are dropped
before this is applied, and the minimum of no values is null. -/
def colMin : List ℚ → Option ℚ
  | [] => none
  | q :: qs =>
    some (match colMin qs with
          | none => q
          | some a => min q a)

/-- Maximum of a materialized column, polars style. -/
def colMax : List ℚ → Option ℚ
  | [] => none
  | q :: qs =>
    some (match colMax qs with
          | none => q
          | some a => max q a)

/-- The non-null STATISTIC values of one metric across the whole dataset
(the column that `metric_range` takes min/max of; polars min and max
ignore nulls). `metric_range` calls `self.query` with one positional
predicate, so this path too equals `filterRows` (lemma `query_cons`). -/
def metricStats (m : EvaluationCSVManager) (metricName : String) : List ℚ :=
  (filterRows m [fun r => r.metricName == some metricName]).filterMap
    (fun r => r.statistic)

/-- `EvaluationCSVManager.metric_range` (main.py lines 116-122): min and
max of STATISTIC over all rows of the metric, ignoring every other
dimension; `(none, none)` when the metric has no non-null statistic. -/
def metric_range (m : EvaluationCSVManager) (metricName : String) :
    Option ℚ × Option ℚ :=
  (colMin (metricStats m metricName), colMax (metricStats m metricName))

/-- `METRIC_COLORBAR_LIMITS` (main.py lines 175-177) after the update
performed in `SiteSelector.generate` (main.py lines 230-232), which adds
the computed range of SAMPLE SIZE to the dict. -/
def metricColorbarLimits (m : EvaluationCSVManager) :
    List (String × (Option ℚ × Option ℚ)) :=
  [("BIAS FRACTION", (some (-1 : ℚ), some (1 : ℚ))),
   ("SAMPLE SIZE", metric_range m "SAMPLE SIZE")]

/-- The colorbar-limit resolution of `SiteSelector.generate` (main.py
lines 233-234): `self.metric_colorbar_limits.get(metric_label,
(None, None))` on the updated dict. -/
def colorbarLookup (m : EvaluationCSVManager) (label : String) :
    Option ℚ × Option ℚ :=
  (((metricColorbarLimits m).find? (fun p => p.1 == label)).map
    (fun p => p.2)).getD (none, none)

/-- The deduplicated (LEFT FEATURE DESCRIPTION, LEFT FEATURE NAME,
RIGHT FEATURE NAME) tuples of `EvaluationCSVManager.feature_mapping`
(main.py lines 128-134): select the three columns, `.unique()`. -/
def featureMappingRows (m : EvaluationCSVManager) :
    List (Option String × Option String × Option String) :=
  uniqueFirst (m.dataframe.map
    (fun r => (r.leftFeatureDescription, r.leftFeatureName, r.rightFeatureName)))

/-- `EvaluationCSVManager.feature_mapping` (main.py lines 128-136): the
deduplicated tuples with the geometry series aligned by name. -/
def feature_mapping (m : EvaluationCSVManager) :
    List ((Option String × Option String × Option String) × Option (Option String)) :=
  (featureMappingRows m).map (fun t => (t, seriesLookup (geometry m) t.2.1))

/-- `EvaluationCSVManager.earliest_lead_times` (main.py lines 163-167):
distinct EARLIEST LEAD TIME values, `.unique()` with no sort. -/
def earliest_lead_times (m : EvaluationCSVManager) : List Int :=
  uniqueFirst (m.dataframe.map (fun r => r.earliestLeadTime))

/-! Test fixtures: concrete rows and managers used to witness the
theorems below on evaluable inputs. -/

/-- Fixture: one fully populated source row. -/
def baseSource : SourceRow where
  leftFeatureName := some "A"
  leftFeatureWkt := some "POINT (0 0)"
  leftFeatureDescription := some "Site A"
  rightFeatureName := some "1"
  latestIssuedTimeInclusive := some duration90Days
  earliestValidTimeExclusive := none
  latestValidTimeInclusive := none
  earliestIssuedTimeExclusive := some 0
  earliestLeadDurationExclusive := some "PT0H"
  latestLeadDurationInclusive := some "PT6H"
  eventThresholdName := none
  eventThresholdLowerValue := none
  metricName := some "BIAS FRACTION"
  sampleQuantile := none
  statistic := some 5

/-- Fixture: one derived row matching the default metric-map query
dimensions (null threshold, null quantile, 90-day evaluation period). -/
def baseRow : Row where
  leftFeatureName := some "A"
  leftFeatureWkt := some "POINT (0 0)"
  leftFeatureDescription := some "Site A"
  rightFeatureName := some "1"
  latestIssuedTimeInclusive := some duration90Days
  earliestValidTimeExclusive := none
  latestValidTimeInclusive := none
  earliestIssuedTimeExclusive := some 0
  earliestLeadDurationExclusive := some "PT0H"
  latestLeadDurationInclusive := some "PT6H"
  eventThresholdName := none
  eventThresholdLowerValue := none
  metricName := some "BIAS FRACTION"
  sampleQuantile := none
  statistic := some 5
  evaluationPeriod := some duration90Days
  earliestLeadTime := 0
  latestLeadTime := 6

/-- Fixture: a single-row manager. -/
def exManager : EvaluationCSVManager := ⟨[baseRow]⟩

/-- Fixture: lead times appear in the order 6, 0 in the data. -/
def leadOrderManager : EvaluationCSVManager :=
  ⟨[{ baseRow with earliestLeadTime := 6 },
    { baseRow with earliestLeadTime := 0 }]⟩

/-- Fixture: one row of a metric with no colorbar-override entry. -/
def meanErrorManager : EvaluationCSVManager :=
  ⟨[{ baseRow with metricName := some "MEAN ERROR" }]⟩

/-- Fixture: the same left feature name with two distinct descriptions. -/
def dupNameManager : EvaluationCSVManager :=
  ⟨[baseRow, { baseRow with leftFeatureDescription := some "Site A other" }]⟩

/-- Fixture: the row parsed from a source line whose two lead-duration
fields hold the sentinel "unbounded" strings (normalized to null). -/
def sentinelSource : SourceRow :=
  { baseSource with
    earliestLeadDurationExclusive := normalizeField "PT-2562047788015215H-30M-8S"
    latestLeadDurationInclusive :=
      normalizeField "PT2562047788015215H30M7.999999999S" }

/-- The derived row of `sentinelSource`. -/
def sentinelDerived : Row := (deriveRow sentinelSource).getD baseRow

/-- Fixture: lead durations expressed in minutes and in mixed units. -/
def c10Source : SourceRow :=
  { baseSource with
    earliestLeadDurationExclusive := some "PT90M"
    latestLeadDurationInclusive := some "PT3H30M" }

/-- The derived row of `c10Source`. -/
def c10Derived : Row := (deriveRow c10Source).getD baseRow

/-! Helper lemmas about the deduplication and column min/max models. -/

theorem mem_uniqueFirstAux [DecidableEq α] (seen l : List α) (a : α) :
    a ∈ uniqueFirstAux seen l ↔ a ∈ l ∧ a ∉ seen := by
  induction l generalizing seen with
  | nil => simp [uniqueFirstAux]
  | cons x xs ih =>
    simp only [uniqueFirstAux]
    by_cases hx : x ∈ seen
    · rw [if_pos hx, ih]
      constructor
      · exact fun h => ⟨List.mem_cons_of_mem _ h.1, h.2⟩
      · rintro ⟨hmem, hns⟩
        rcases List.mem_cons.mp hmem with h | h
        · subst h; exact absurd hx hns
        · exact ⟨h, hns⟩
    · rw [if_neg hx]
      constructor
      · intro h
        rcases List.mem_cons.mp h with h | h
        · subst h; exact ⟨List.mem_cons_self _ _, hx⟩
        · have h' := (ih (x :: seen)).mp h
          refine ⟨List.mem_cons_of_mem _ h'.1, fun hs => h'.2 ?_⟩
          exact List.mem_cons_of_mem _ hs
      · rintro ⟨hmem, hns⟩
        rcases List.mem_cons.mp hmem with h | h
        · subst h; exact List.mem_cons_self _ _
        · by_cases hax : a = x
          · subst hax; exact List.mem_cons_self _ _
          · refine List.mem_cons_of_mem _ ((ih (x :: seen)).mpr ⟨h, ?_⟩)
            intro hs
            rcases List.mem_cons.mp hs with h' | h'
            · exact hax h'
            · exact hns h'

theorem nodup_uniqueFirstAux [DecidableEq α] (seen l : List α) :
    (uniqueFirstAux seen l).Nodup := by
  induction l generalizing seen with
  | nil => simp [uniqueFirstAux]
  | cons x xs ih =>
    simp only [uniqueFirstAux]
    by_cases hx : x ∈ seen
    · rw [if_pos hx]; exact ih seen
    · rw [if_neg hx]
      refine List.nodup_cons.mpr ⟨?_, ih (x :: seen)⟩
      intro hmem
      exact ((mem_uniqueFirstAux _ _ _).mp hmem).2 (List.mem_cons_self _ _)

theorem mem_uniqueFirst [DecidableEq α] (l : List α) (a : α) :
    a ∈ uniqueFirst l ↔ a ∈ l := by
  simp [uniqueFirst, mem_uniqueFirstAux]

theorem nodup_uniqueFirst [DecidableEq α] (l : List α) :
    (uniqueFirst l).Nodup :=
  nodup_uniqueFirstAux _ _

theorem leadPipeline_none : leadPipeline none = some 0 := rfl

theorem query_cons (m : EvaluationCSVManager) (f : Row → Bool)
    (fs : List (Row → Bool)) :
    query m (f :: fs) = some (filterRows m (f :: fs)) := rfl

theorem colMin_eq_none_iff (l : List ℚ) : colMin l = none ↔ l = [] := by
  cases l <;> simp [colMin]

theorem colMax_eq_none_iff (l : List ℚ) : colMax l = none ↔ l = [] := by
  cases l <;> simp [colMax]

theorem colMin_le (l : List ℚ) :
    ∀ a, colMin l = some a → ∀ q ∈ l, a ≤ q := by
  induction l with
  | nil => intro a h; simp [colMin] at h
  | cons x xs ih =>
    intro a h q hq
    cases hxs : colMin xs with
    | none =>
      rw [colMin_eq_none_iff] at hxs
      subst hxs
      simp [colMin] at h
      subst h
      simp at hq
      subst hq
      exact le_refl _
    | some b =>
      simp [colMin, hxs] at h
      subst h
      rcases List.mem_cons.mp hq with h' | h'
      · subst h'; exact min_le_left _ _
      · exact le_trans (min_le_right x b) (ih b hxs q h')

theorem colMax_ge (l : List ℚ) :
    ∀ a, colMax l = some a → ∀ q ∈ l, q ≤ a := by
  induction l with
  | nil => intro a h; simp [colMax] at h
  | cons x xs ih =>
    intro a h q hq
    cases hxs : colMax xs with
    | none =>
      rw [colMax_eq_none_iff] at hxs
      subst hxs
      simp [colMax] at h
      subst h
      simp at hq
      subst hq
      exact le_refl _
    | some b =>
      simp [colMax, hxs] at h
      subst h
      rcases List.mem_cons.mp hq with h' | h'
      · subst h'; exact le_max_left _ _
      · exact le_trans (ih b hxs q h') (le_max_right x b)

theorem colMin_mem (l : List ℚ) :
    ∀ a, colMin l = some a → a ∈ l := by
  induction l with
  | nil => intro a h; simp [colMin] at h
  | cons x xs ih =>
    intro a h
    cases hxs : colMin xs with
    | none =>
      simp [colMin, hxs] at h
      subst h
      exact List.mem_cons_self _ _
    | some b =>
      simp [colMin, hxs] at h
      subst h
      rcases min_choice x b with hm | hm
      · rw [hm]; exact List.mem_cons_self _ _
      · rw [hm]; exact List.mem_cons_of_mem _ (ih b hxs)

theorem colMax_mem (l : List ℚ) :
    ∀ a, colMax l = some a → a ∈ l := by
  induction l with
  | nil => intro a h; simp [colMax] at h
  | cons x xs ih =>
    intro a h
    cases hxs : colMax xs with
    | none =>
      simp [colMax, hxs] at h
      subst h
      exact List.mem_cons_self _ _
    | some b =>
      simp [colMax, hxs] at h
      subst h
      rcases max_choice x b with hm | hm
      · rw [hm]; exact List.mem_cons_self _ _
      · rw [hm]; exact List.mem_cons_of_mem _ (ih b hxs)

/-! Claim theorems. -/

/-- Claim C1, counterexample. The claim says a derived lead-time field is
null if and only if the source duration-text is absent or a sentinel
"unbounded" string, and is never replaced by a finite substitute such as
0. In the code (main.py lines 66-71) the derivation ends in
`fill_null(0)`: for a row whose lead-duration fields hold the sentinel
strings (normalized to null by `scan_csv`), the derived lead-time fields
are the finite value 0, not null. -/
theorem c1_counterexample :
    normalizeField "PT-2562047788015215H-30M-8S" = none ∧
    normalizeField "PT2562047788015215H30M7.999999999S" = none ∧
    (deriveRow sentinelSource).map Row.earliestLeadTime = some 0 ∧
    (deriveRow sentinelSource).map Row.latestLeadTime = some 0 := by
  refine ⟨by decide, by decide, by decide, by decide⟩

/-- Claim C1, amended: the derived lead-time fields are never null (their
column is non-nullable after `fill_null(0)`); whenever the source
duration-text is one of the sentinel strings — hence normalized to null
at parse time — the derived EARLIEST LEAD TIME and LATEST LEAD TIME are
the finite fallback 0. -/
theorem c1_lead_time_null_fill (raw : String) (r : SourceRow) (dr : Row)
    (hraw : raw ∈ NULL_VALUES)
    (h1 : r.earliestLeadDurationExclusive = normalizeField raw)
    (h2 : r.latestLeadDurationInclusive = normalizeField raw)
    (hd : deriveRow r = some dr) :
    dr.earliestLeadTime = 0 ∧ dr.latestLeadTime = 0 := by
  have hn : normalizeField raw = none := by
    simp [normalizeField, hraw]
  unfold deriveRow at hd
  rw [h1, h2, hn, leadPipeline_none] at hd
  injection hd with hd
  subst hd
  exact ⟨rfl, rfl⟩

/-- Claim C1, witness for the amended theorem at the sentinel fixture. -/
theorem c1_witness :
    sentinelDerived.earliestLeadTime = 0 ∧ sentinelDerived.latestLeadTime = 0 :=
  c1_lead_time_null_fill "PT-2562047788015215H-30M-8S" sentinelSource
    sentinelDerived (by decide) (by decide) (by decide) (by decide)

/-- Claim C2, counterexample. The claim says a feature present in the
filtered statistic rows but absent from the geometry catalog makes the
query call fail with a QueryError instead of returning a row with
missing geometry. The code's join step (`df["geometry"] = self.geometry`,
main.py line 113) is pandas index alignment: on a statistic row whose
feature is absent from the geometry series, it silently aligns to null
and raises nothing — the call returns a row with missing geometry. -/
theorem c2_counterexample :
    assignGeometry [(some "A", some (5 : ℚ))] [] =
      [(some "A", some (5 : ℚ), none)] := by
  decide

/-- Claim C2, amended: no QueryError exists in the code — the join fills
missing geometry with null — but the join-integrity fact itself holds:
every feature in the filtered statistic rows has an entry in the geometry
catalog derived from the same dataset, so every row returned by
`load_metric_map` carries a geometry value. -/
theorem c2_join_totality (m : EvaluationCSVManager) (metricName : String)
    (earliestLeadTime : Int) (threshold : Option String)
    (sampleQuantile : Option ℚ) (evaluationPeriod : Option Int)
    (row : Option String × Option ℚ × Option (Option String))
    (hrow : row ∈ loadMetricMap m metricName earliestLeadTime threshold
      sampleQuantile evaluationPeriod) :
    row.2.2.isSome = true := by
  rcases List.mem_map.mp hrow with ⟨p, hp, rfl⟩
  rcases List.mem_map.mp hp with ⟨r, hr, rfl⟩
  have hrm : r ∈ m.dataframe := List.mem_of_mem_filter hr
  have hpair : (r.leftFeatureName, r.leftFeatureWkt) ∈ geometry m := by
    rw [geometry, mem_uniqueFirst]
    exact List.mem_map.mpr ⟨r, hrm, rfl⟩
  have hfind : ((geometry m).find? (fun p => p.1 == r.leftFeatureName)).isSome := by
    rw [List.find?_isSome]
    exact ⟨_, hpair, by simp⟩
  rcases Option.isSome_iff_exists.mp hfind with ⟨x, hx⟩
  simp [seriesLookup, hx]

/-- Claim C2, witness for the amended theorem on a one-row dataset whose
default-dimension query returns one statistic row. -/
theorem c2_witness :
    ((some "A", some (5 : ℚ), some (some "POINT (0 0)")) :
      Option String × Option ℚ × Option (Option String)).2.2.isSome = true :=
  c2_join_totality exManager "BIAS FRACTION" 0 none none none
    (some "A", some (5 : ℚ), some (some "POINT (0 0)")) (by decide)

/-- Claim C3, counterexample. The claim says `earliest_lead_times`
returns the distinct EARLIEST LEAD TIME values sorted ascending, with
index 0 the smallest bucket. The code (main.py lines 163-167) only calls
`.unique()` and never sorts: on a dataset whose lead times appear in the
order 6, 0 the result is [6, 0], which is not ascending and whose index
0 is not the smallest bucket. -/
theorem c3_counterexample :
    earliest_lead_times leadOrderManager = [6, 0] ∧
    ¬ List.Chain' (· ≤ ·) (earliest_lead_times leadOrderManager) := by
  have h : earliest_lead_times leadOrderManager = [6, 0] := by decide
  refine ⟨h, ?_⟩
  rw [h]
  intro hc
  exact absurd (List.chain'_cons.mp hc).1 (by norm_num)

/-- Claim C3, amended: `earliest_lead_times` returns the distinct
EARLIEST LEAD TIME values (each exactly once, a value is listed if and
only if some row carries it), in first-appearance order, with no sorting
guarantee. -/
theorem c3_lead_time_buckets (m : EvaluationCSVManager) (a : Int) :
    (earliest_lead_times m).Nodup ∧
    (a ∈ earliest_lead_times m ↔ ∃ r ∈ m.dataframe, r.earliestLeadTime = a) := by
  refine ⟨nodup_uniqueFirst _, ?_⟩
  rw [earliest_lead_times, mem_uniqueFirst]
  simp [List.mem_map]

/-- Claim C4, counterexample. The claim says a metric without an override
entry gets the actual min and max of its STATISTIC values. The code's
resolution (`self.metric_colorbar_limits.get(metric_label, (None, None))`
after adding only the SAMPLE SIZE range, main.py lines 230-234) returns
(None, None) for every metric other than BIAS FRACTION and SAMPLE SIZE,
even when the metric has rows: here MEAN ERROR has a row with statistic
5, `metric_range` computes (5, 5), yet the resolution yields
(None, None). -/
theorem c4_counterexample :
    colorbarLookup meanErrorManager "MEAN ERROR" = (none, none) ∧
    metric_range meanErrorManager "MEAN ERROR" = (some (5 : ℚ), some (5 : ℚ)) := by
  refine ⟨by decide, by decide⟩

/-- Claim C4, amended: the colorbar-limit resolution returns the curated
override for BIAS FRACTION, the computed `metric_range` only for SAMPLE
SIZE, and (null, null) for every other metric regardless of its rows;
`metric_range` itself always computes the dataset-wide min and max of
the metric's non-null STATISTIC values (attained bounds), and returns
(null, null) exactly when the metric has no such value. -/
theorem c4_colorbar_range (m : EvaluationCSVManager) (name : String) :
    colorbarLookup m "BIAS FRACTION" = (some (-1 : ℚ), some (1 : ℚ)) ∧
    colorbarLookup m "SAMPLE SIZE" = metric_range m "SAMPLE SIZE" ∧
    (name ≠ "BIAS FRACTION" → name ≠ "SAMPLE SIZE" →
      colorbarLookup m name = (none, none)) ∧
    (metric_range m name = (none, none) ↔ metricStats m name = []) ∧
    (∀ q ∈ metricStats m name, ∃ lo hi,
      metric_range m name = (some lo, some hi) ∧
      lo ∈ metricStats m name ∧ hi ∈ metricStats m name ∧
      lo ≤ q ∧ q ≤ hi) := by
  refine ⟨rfl, rfl, ?_, ?_, ?_⟩
  · intro hbf hss
    have hb : (("BIAS FRACTION" : String) == name) = false := by
      rw [beq_eq_false_iff_ne]
      exact fun h => hbf h.symm
    have hs : (("SAMPLE SIZE" : String) == name) = false := by
      rw [beq_eq_false_iff_ne]
      exact fun h => hss h.symm
    simp [colorbarLookup, metricColorbarLimits, List.find?, hb, hs]
  · simp only [metric_range, Prod.mk.injEq, colMin_eq_none_iff,
      colMax_eq_none_iff, and_self]
  · intro q hq
    have hne : metricStats m name ≠ [] := List.ne_nil_of_mem hq
    obtain ⟨lo, hlo⟩ : ∃ lo, colMin (metricStats m name) = some lo := by
      cases h : colMin (metricStats m name) with
      | none => exact absurd ((colMin_eq_none_iff _).mp h) hne
      | some a => exact ⟨a, rfl⟩
    obtain ⟨hi, hhi⟩ : ∃ hi, colMax (metricStats m name) = some hi := by
      cases h : colMax (metricStats m name) with
      | none => exact absurd ((colMax_eq_none_iff _).mp h) hne
      | some a => exact ⟨a, rfl⟩
    exact ⟨lo, hi, by simp [metric_range, hlo, hhi],
      colMin_mem _ lo hlo, colMax_mem _ hi hhi,
      colMin_le _ lo hlo q hq, colMax_ge _ hi hhi q hq⟩

/-- Claim C4, witness for the amended theorem: MEAN ERROR has no override
entry, so the resolution is (null, null) while the computed range bounds
its one statistic value 5. -/
theorem c4_witness :
    colorbarLookup meanErrorManager "MEAN ERROR" = (none, none) ∧
    (∃ lo hi, metric_range meanErrorManager "MEAN ERROR" = (some lo, some hi) ∧
      lo ∈ metricStats meanErrorManager "MEAN ERROR" ∧
      hi ∈ metricStats meanErrorManager "MEAN ERROR" ∧
      lo ≤ (5 : ℚ) ∧ (5 : ℚ) ≤ hi) :=
  ⟨(c4_colorbar_range meanErrorManager "MEAN ERROR").2.2.1
      (by decide) (by decide),
   (c4_colorbar_range meanErrorManager "MEAN ERROR").2.2.2.2 5 (by decide)⟩

/-- Claim C5: `load_metric_map` with `threshold=None` selects exactly the
rows whose EVENT THRESHOLD NAME is null, with the not-a-number
sample-quantile sentinel (the default, modelled by `none`) exactly the
rows whose SAMPLE QUANTILE is null, and with no evaluation period given
it filters on the fixed 90-day duration; all five dimension predicates
are conjoined. A pair is in the materialized statistic rows if and only
if some dataset row satisfies every predicate and projects to it
(main.py lines 87-112). -/
theorem c5_conjunctive_null_filters (m : EvaluationCSVManager) (name : String)
    (elt : Int) (p : Option String × Option ℚ) :
    p ∈ loadMetricMapStats m name elt none none none ↔
      ∃ r, r ∈ m.dataframe ∧ r.metricName = some name ∧
        r.earliestLeadTime = elt ∧ r.eventThresholdName = none ∧
        r.sampleQuantile = none ∧ r.evaluationPeriod = some duration90Days ∧
        p = (r.leftFeatureName, r.statistic) := by
  constructor
  · intro hp
    rcases List.mem_map.mp hp with ⟨r, hr, hpr⟩
    rcases List.mem_filter.mp hr with ⟨hrm, hpred⟩
    simp only [List.all_cons, List.all_nil, Bool.and_true, Bool.and_eq_true,
      beq_iff_eq, sqFilterExpr, tholdFilterExpr, Option.isNone_iff_eq_none,
      Option.getD_none] at hpred
    obtain ⟨h1, h2, h3, h4, h5⟩ := hpred
    exact ⟨r, hrm, h5, h1, h3, h2, h4, hpr.symm⟩
  · rintro ⟨r, hrm, h1, h2, h3, h4, h5, rfl⟩
    refine List.mem_map.mpr ⟨r, List.mem_filter.mpr ⟨hrm, ?_⟩, rfl⟩
    simp [List.all_cons, sqFilterExpr, tholdFilterExpr, h1, h2, h3, h4, h5]

/-- Claim C6, counterexample. The claim says every entry of the feature
mapping has a unique leftFeatureName. The code deduplicates by the full
(description, name, right-name) tuple (main.py lines 128-134): a dataset
in which the same left feature name appears with two different
descriptions keeps both tuples, so the name column of the mapping has a
duplicate. -/
theorem c6_counterexample :
    (featureMappingRows dupNameManager).map (fun t => t.2.1) =
      [some "A", some "A"] ∧
    ¬ ((featureMappingRows dupNameManager).map (fun t => t.2.1)).Nodup := by
  refine ⟨by decide, by decide⟩

/-- Claim C6, amended: the feature mapping deduplicates by the full
(description, name, right-name) tuple — identical tuples across files
collapse to a single entry, and every row's tuple is present — and
leftFeatureName is unique provided the file set is consistent, i.e. any
two rows sharing a left feature name agree on the description and the
right feature name. -/
theorem c6_feature_tuple_dedup (m : EvaluationCSVManager)
    (hcons : ∀ r ∈ m.dataframe, ∀ s ∈ m.dataframe,
      r.leftFeatureName = s.leftFeatureName →
      r.leftFeatureDescription = s.leftFeatureDescription ∧
      r.rightFeatureName = s.rightFeatureName) :
    (featureMappingRows m).Nodup ∧
    ((featureMappingRows m).map (fun t => t.2.1)).Nodup ∧
    ∀ r ∈ m.dataframe,
      (r.leftFeatureDescription, r.leftFeatureName, r.rightFeatureName) ∈
        featureMappingRows m := by
  refine ⟨nodup_uniqueFirst _, ?_, ?_⟩
  · refine (nodup_uniqueFirst _).map_on ?_
    intro t ht t' ht' hname
    rcases List.mem_map.mp ((mem_uniqueFirst _ _).mp ht) with ⟨r, hr, rfl⟩
    rcases List.mem_map.mp ((mem_uniqueFirst _ _).mp ht') with ⟨s, hs, rfl⟩
    have hname' : r.leftFeatureName = s.leftFeatureName := hname
    obtain ⟨hd, hrt⟩ := hcons r hr s hs hname'
    simp [Prod.ext_iff, hd, hrt, hname']
  · intro r hr
    rw [featureMappingRows, mem_uniqueFirst]
    exact List.mem_map.mpr ⟨r, hr, rfl⟩

/-- Claim C6, witness for the amended theorem on the consistent one-row
fixture. -/
theorem c6_witness :
    (featureMappingRows exManager).Nodup ∧
    ((featureMappingRows exManager).map (fun t => t.2.1)).Nodup ∧
    ∀ r ∈ exManager.dataframe,
      (r.leftFeatureDescription, r.leftFeatureName, r.rightFeatureName) ∈
        featureMappingRows exManager :=
  c6_feature_tuple_dedup exManager (by decide)

/-- Claim C7: a metric-map query whose predicate matches no rows — here,
a metric name carried by no row of the dataset — returns the empty
collection; in this embedding every involved operation is total, and the
empty case goes through `collect`, `set_index` and the geometry
alignment without any error (main.py lines 105-114). -/
theorem c7_empty_result (m : EvaluationCSVManager) (name : String) (elt : Int)
    (threshold : Option String) (sampleQuantile : Option ℚ)
    (evaluationPeriod : Option Int)
    (h : ∀ r ∈ m.dataframe, r.metricName ≠ some name) :
    loadMetricMap m name elt threshold sampleQuantile evaluationPeriod = [] := by
  have hf : (filterRows m
      [fun r => r.earliestLeadTime == elt,
       sqFilterExpr sampleQuantile,
       tholdFilterExpr threshold,
       fun r => r.evaluationPeriod == some (evaluationPeriod.getD duration90Days),
       fun r => r.metricName == some name]) = [] := by
    rw [filterRows, List.filter_eq_nil_iff]
    intro r hr hc
    simp only [List.all_cons, List.all_nil, Bool.and_true, Bool.and_eq_true,
      beq_iff_eq] at hc
    exact h r hr hc.2.2.2.2
  simp [loadMetricMap, assignGeometry, loadMetricMapStats, hf]

/-- Claim C7, witness: querying the one-row fixture for a metric name
absent from it yields the empty result. -/
theorem c7_witness :
    loadMetricMap exManager "SOME OTHER METRIC" 0 none none none = [] :=
  c7_empty_result exManager "SOME OTHER METRIC" 0 none none none (by decide)

/-- Claim C8, counterexample. The claim says filtering with an empty
predicate set and then materializing returns exactly the unfiltered
derived rows. polars `LazyFrame.filter` with zero positional predicates
raises `TypeError` ("at least one predicate or constraint must be
provided"), so `query()` with an empty filter set raises (modelled by
`none`) instead of returning the rows. -/
theorem c8_counterexample :
    query exManager [] = none ∧
    query exManager [] ≠ some exManager.dataframe :=
  ⟨rfl, by simp [query, filterRows]⟩

/-- Claim C8, amended: `query` with an empty predicate set raises (the
polars zero-predicate guard); with a non-empty predicate set whose every
predicate holds on every derived row — the nearest well-defined form of
the identity filter law — materializing returns every derived row
unchanged and in the same order. -/
theorem c8_identity_filter_nonempty (m : EvaluationCSVManager)
    (filters : List (Row → Bool)) (hne : filters ≠ [])
    (hall : ∀ p ∈ filters, ∀ r ∈ m.dataframe, p r = true) :
    query m filters = some m.dataframe := by
  rw [query, if_neg (by simpa using hne)]
  congr 1
  rw [filterRows, List.filter_eq_self]
  intro r hr
  rw [List.all_eq_true]
  exact fun p hp => hall p hp r hr

/-- Claim C8, witness for the amended theorem: one always-true predicate
keeps every row of the fixture unchanged. -/
theorem c8_witness :
    query exManager [fun _ => true] = some exManager.dataframe :=
  c8_identity_filter_nonempty exManager [fun _ => true]
    (List.cons_ne_nil _ _)
    (by intro p hp r hr; simp only [List.mem_singleton] at hp; subst hp; rfl)

/-- Claim C10: for a non-null duration-text, the derived lead-time fields
equal the value of the first contiguous run of digits in the string
(read as an in-range 32-bit integer), whatever unit letters surround it
— `str.extract("(\\d+)")` takes the first digit run regardless of the
following unit, so minutes and seconds after the first number are
ignored and "PT90M" yields 90 (main.py lines 62-72). -/
theorem c10_first_digit_run (r : SourceRow) (dr : Row) (t u : String)
    (n k : Nat)
    (ht : r.earliestLeadDurationExclusive = some t)
    (hu : r.latestLeadDurationInclusive = some u)
    (htn : extractLeadNat t = some n) (hun : extractLeadNat u = some k)
    (hn : n ≤ int32Max) (hk : k ≤ int32Max)
    (hd : deriveRow r = some dr) :
    dr.earliestLeadTime = Int.ofNat n ∧ dr.latestLeadTime = Int.ofNat k := by
  have h1 : leadPipeline (some t) = some (Int.ofNat n) := by
    simp [leadPipeline, htn, hn]
  have h2 : leadPipeline (some u) = some (Int.ofNat k) := by
    simp [leadPipeline, hun, hk]
  unfold deriveRow at hd
  rw [ht, hu, h1, h2] at hd
  injection hd with hd
  subst hd
  exact ⟨rfl, rfl⟩

/-- Claim C10, witness: "PT90M" (no hour component) derives lead time 90,
and "PT3H30M" derives 3, its minute component ignored. -/
theorem c10_witness :
    c10Derived.earliestLeadTime = Int.ofNat 90 ∧
    c10Derived.latestLeadTime = Int.ofNat 3 :=
  c10_first_digit_run c10Source c10Derived "PT90M" "PT3H30M" 90 3
    (by decide) (by decide) (by decide) (by decide) (by decide) (by decide)
    (by decide)

end WresExplorer
